import Mathlib

/-!
Shallow embedding of the mouse-to-world ray casting and projectile spawning
logic of `src/main.rs` (a bevy + bevy_rapier3d demo).  The `f32` arithmetic of
the source is modelled by exact rational arithmetic (`ℚ`); following the
Mathlib convention, division by zero yields `0` where IEEE arithmetic would
produce `±inf`/`NaN` — every place where that convention matters is flagged at
the corresponding theorem.

The vector/matrix types mirror `glam` (the math library used by bevy):
matrices are column-major with columns `x_axis .. w_axis`,
`Mat4 * Vec4` is the linear combination of the columns, and `Mat4::inverse`
is the cofactor (adjugate-over-determinant) inverse, which `glam` computes
via sub-determinants; a non-invertible input yields an "invalid" matrix
(non-finite entries in `f32`; here the division-by-zero convention applies).
-/

/-- 2D vector (`glam::Vec2`), components modelled as `ℚ`. -/
structure Vec2 where
  x : ℚ
  y : ℚ
deriving DecidableEq, Repr

/-- 3D vector (`glam::Vec3`). -/
structure Vec3 where
  x : ℚ
  y : ℚ
  z : ℚ
deriving DecidableEq, Repr

/-- 4D vector (`glam::Vec4`). -/
structure Vec4 where
  x : ℚ
  y : ℚ
  z : ℚ
  w : ℚ
deriving DecidableEq, Repr

attribute [ext] Vec2 Vec3 Vec4

/-- `Vec3::extend(w)`: append a fourth component. -/
def Vec3.extend (v : Vec3) (w : ℚ) : Vec4 := ⟨v.x, v.y, v.z, w⟩

/-- `Vec4::truncate()`: drop the fourth component. -/
def Vec4.truncate (v : Vec4) : Vec3 := ⟨v.x, v.y, v.z⟩

/-- `Vec3 / scalar` (componentwise, as in `near.truncate() / near.w`). -/
def Vec3.div (v : Vec3) (s : ℚ) : Vec3 := ⟨v.x / s, v.y / s, v.z / s⟩

/-- `Vec3 - Vec3`. -/
def Vec3.sub (a b : Vec3) : Vec3 := ⟨a.x - b.x, a.y - b.y, a.z - b.z⟩

/-- `Vec3 * scalar` (as in `camera_transform.forward() * 5000.0`). -/
def Vec3.smul (s : ℚ) (v : Vec3) : Vec3 := ⟨s * v.x, s * v.y, s * v.z⟩

/-- `scalar * Vec4` (componentwise). -/
def Vec4.smul (s : ℚ) (v : Vec4) : Vec4 := ⟨s * v.x, s * v.y, s * v.z, s * v.w⟩

/-- Column-major 4×4 matrix (`glam::Mat4`): `x_axis` is the first column, …
The entry in row `r` of column `c` is component `r` of axis `c`. -/
structure Mat4 where
  x_axis : Vec4
  y_axis : Vec4
  z_axis : Vec4
  w_axis : Vec4
deriving DecidableEq, Repr

attribute [ext] Mat4

/-- `Mat4 * Vec4` (`glam`): the linear combination of the columns by the
components of the vector. -/
def Mat4.mulVec4 (m : Mat4) (v : Vec4) : Vec4 :=
  ⟨m.x_axis.x * v.x + m.y_axis.x * v.y + m.z_axis.x * v.z + m.w_axis.x * v.w,
   m.x_axis.y * v.x + m.y_axis.y * v.y + m.z_axis.y * v.z + m.w_axis.y * v.w,
   m.x_axis.z * v.x + m.y_axis.z * v.y + m.z_axis.z * v.z + m.w_axis.z * v.w,
   m.x_axis.w * v.x + m.y_axis.w * v.y + m.z_axis.w * v.z + m.w_axis.w * v.w⟩

/-- `Mat4 * Mat4` (`glam`): each column of the product is the left matrix
applied to the corresponding column of the right matrix. -/
def Mat4.mul (a b : Mat4) : Mat4 :=
  ⟨a.mulVec4 b.x_axis, a.mulVec4 b.y_axis, a.mulVec4 b.z_axis, a.mulVec4 b.w_axis⟩

/-- The identity matrix (`glam::Mat4::IDENTITY`). -/
def Mat4.identity : Mat4 :=
  ⟨⟨1, 0, 0, 0⟩, ⟨0, 1, 0, 0⟩, ⟨0, 0, 1, 0⟩, ⟨0, 0, 0, 1⟩⟩

/-- Determinant of a 3×3 matrix given row by row; building block of the 4×4
cofactors that `glam` computes via 2×2 sub-determinants. -/
def det3 (a b c d e f g h i : ℚ) : ℚ :=
  a * (e * i - f * h) - b * (d * i - f * g) + c * (d * h - e * g)

/-- `Mat4::determinant()`: Laplace expansion along the first row.
Writing `a r c` for the entry in row `r`, column `c`
(so `a r 0 = x_axis` component `r`, etc.). -/
def Mat4.det (m : Mat4) : ℚ :=
  m.x_axis.x * det3 m.y_axis.y m.z_axis.y m.w_axis.y
                    m.y_axis.z m.z_axis.z m.w_axis.z
                    m.y_axis.w m.z_axis.w m.w_axis.w
  - m.y_axis.x * det3 m.x_axis.y m.z_axis.y m.w_axis.y
                      m.x_axis.z m.z_axis.z m.w_axis.z
                      m.x_axis.w m.z_axis.w m.w_axis.w
  + m.z_axis.x * det3 m.x_axis.y m.y_axis.y m.w_axis.y
                      m.x_axis.z m.y_axis.z m.w_axis.z
                      m.x_axis.w m.y_axis.w m.w_axis.w
  - m.w_axis.x * det3 m.x_axis.y m.y_axis.y m.z_axis.y
                      m.x_axis.z m.y_axis.z m.z_axis.z
                      m.x_axis.w m.y_axis.w m.z_axis.w

/-- `Mat4::inverse()`: the cofactor (adjugate / determinant) inverse, exactly
the quantity `glam` computes through its 2×2 sub-determinant factoring.
Column `c` of the inverse holds the row-`c` cofactors of `m`, divided by the
determinant.  For a singular matrix `glam` documents the result as invalid
(its `f32` entries are non-finite); here the `ℚ` division-by-zero convention
makes every entry `0`. -/
def Mat4.inverse (m : Mat4) : Mat4 :=
  let d := m.det
  ⟨⟨(det3 m.y_axis.y m.z_axis.y m.w_axis.y
          m.y_axis.z m.z_axis.z m.w_axis.z
          m.y_axis.w m.z_axis.w m.w_axis.w) / d,
    (-det3 m.x_axis.y m.z_axis.y m.w_axis.y
           m.x_axis.z m.z_axis.z m.w_axis.z
           m.x_axis.w m.z_axis.w m.w_axis.w) / d,
    (det3 m.x_axis.y m.y_axis.y m.w_axis.y
          m.x_axis.z m.y_axis.z m.w_axis.z
          m.x_axis.w m.y_axis.w m.w_axis.w) / d,
    (-det3 m.x_axis.y m.y_axis.y m.z_axis.y
           m.x_axis.z m.y_axis.z m.z_axis.z
           m.x_axis.w m.y_axis.w m.z_axis.w) / d⟩,
   ⟨(-det3 m.y_axis.x m.z_axis.x m.w_axis.x
           m.y_axis.z m.z_axis.z m.w_axis.z
           m.y_axis.w m.z_axis.w m.w_axis.w) / d,
    (det3 m.x_axis.x m.z_axis.x m.w_axis.x
          m.x_axis.z m.z_axis.z m.w_axis.z
          m.x_axis.w m.z_axis.w m.w_axis.w) / d,
    (-det3 m.x_axis.x m.y_axis.x m.w_axis.x
           m.x_axis.z m.y_axis.z m.w_axis.z
           m.x_axis.w m.y_axis.w m.w_axis.w) / d,
    (det3 m.x_axis.x m.y_axis.x m.z_axis.x
          m.x_axis.z m.y_axis.z m.z_axis.z
          m.x_axis.w m.y_axis.w m.z_axis.w) / d⟩,
   ⟨(det3 m.y_axis.x m.z_axis.x m.w_axis.x
          m.y_axis.y m.z_axis.y m.w_axis.y
          m.y_axis.w m.z_axis.w m.w_axis.w) / d,
    (-det3 m.x_axis.x m.z_axis.x m.w_axis.x
           m.x_axis.y m.z_axis.y m.w_axis.y
           m.x_axis.w m.z_axis.w m.w_axis.w) / d,
    (det3 m.x_axis.x m.y_axis.x m.w_axis.x
          m.x_axis.y m.y_axis.y m.w_axis.y
          m.x_axis.w m.y_axis.w m.w_axis.w) / d,
    (-det3 m.x_axis.x m.y_axis.x m.z_axis.x
           m.x_axis.y m.y_axis.y m.z_axis.y
           m.x_axis.w m.y_axis.w m.z_axis.w) / d⟩,
   ⟨(-det3 m.y_axis.x m.z_axis.x m.w_axis.x
           m.y_axis.y m.z_axis.y m.w_axis.y
           m.y_axis.z m.z_axis.z m.w_axis.z) / d,
    (det3 m.x_axis.x m.z_axis.x m.w_axis.x
          m.x_axis.y m.z_axis.y m.w_axis.y
          m.x_axis.z m.z_axis.z m.w_axis.z) / d,
    (-det3 m.x_axis.x m.y_axis.x m.w_axis.x
           m.x_axis.y m.y_axis.y m.w_axis.y
           m.x_axis.z m.y_axis.z m.w_axis.z) / d,
    (det3 m.x_axis.x m.y_axis.x m.z_axis.x
          m.x_axis.y m.y_axis.y m.z_axis.y
          m.x_axis.z m.y_axis.z m.z_axis.z) / d⟩⟩

/-- bevy `Window` state, restricted to what `ray_from_mouse_position` reads:
`width()`, `height()` and `cursor_position()` (the latter is `None` while the
pointer is outside the window). -/
structure Window where
  width : ℚ
  height : ℚ
  cursor_position : Option Vec2
deriving DecidableEq, Repr

/-- bevy `Camera` state, restricted to what the cast reads:
`projection_matrix()`. -/
structure Camera where
  projection_matrix : Mat4
deriving DecidableEq, Repr

/-- bevy `GlobalTransform` of the camera, carried as the 4×4 matrix that
`compute_matrix()` returns. -/
structure GlobalTransform where
  matrix : Mat4
deriving DecidableEq, Repr

/-- `GlobalTransform::compute_matrix()`. -/
def GlobalTransform.compute_matrix (t : GlobalTransform) : Mat4 := t.matrix

/-- Modelled from the spec: the engine-provided "camera's forward axis"
(`GlobalTransform::forward()`, whose body lives in bevy, not in this
repository) — the negated local-Z axis of the transform.  The engine
additionally normalizes; for the rigid camera transforms of the demo the
axis is already unit length, and normalization (a square root) has no exact
rational counterpart, so it is omitted here. -/
def GlobalTransform.forward (t : GlobalTransform) : Vec3 :=
  ⟨-t.matrix.z_axis.x, -t.matrix.z_axis.y, -t.matrix.z_axis.z⟩

/-- `ray_from_mouse_position` (src/main.rs:167-186), translated clause by
clause: cursor fallback to `(0,0)`, pixel→NDC by `2*(p/size)-1` on both axes,
`camera_inverse_matrix = compute_matrix() * projection_matrix().inverse()`,
unprojection of the near (`z = -1`) and far (`z = 1`) clip points,
perspective divide by `w`, and the pair `(near, far - near)`. -/
def ray_from_mouse_position (window : Window) (camera : Camera)
    (camera_transform : GlobalTransform) : Vec3 × Vec3 :=
  let mouse_position := window.cursor_position.getD ⟨0, 0⟩
  let x := 2 * (mouse_position.x / window.width) - 1
  let y := 2 * (mouse_position.y / window.height) - 1
  let camera_inverse_matrix :=
    camera_transform.compute_matrix.mul camera.projection_matrix.inverse
  let near := camera_inverse_matrix.mulVec4 ((Vec3.mk x y (-1)).extend 1)
  let far := camera_inverse_matrix.mulVec4 ((Vec3.mk x y 1).extend 1)
  let near3 := near.truncate.div near.w
  let far3 := far.truncate.div far.w
  (near3, far3.sub near3)

/-- The components a spawned projectile body is inserted with
(src/main.rs:118-134): transform position, `Velocity { linvel, angvel }`,
`ExternalImpulse { impulse, torque_impulse }` (the collider cuboid, `Ccd`,
`Sleeping` and event flags carry no claim-relevant data and are omitted). -/
structure Body where
  position : Vec3
  linvel : Vec3
  angvel : Vec3
  impulse : Vec3
  torque_impulse : Vec3
deriving DecidableEq, Repr

/-- The body spawned for one camera in the loop of `cast_shape`
(src/main.rs:113-135): position = ray origin, `linvel` = ray direction,
`angvel = (1,1,1)`, `impulse = camera_transform.forward() * 5000.0`,
`torque_impulse = (1,1,1)`. -/
def spawn_for_camera (window : Window) (camera : Camera)
    (camera_transform : GlobalTransform) : Body :=
  let ray := ray_from_mouse_position window camera camera_transform
  { position := ray.1
    linvel := ray.2
    angvel := ⟨1, 1, 1⟩
    impulse := Vec3.smul 5000 camera_transform.forward
    torque_impulse := ⟨1, 1, 1⟩ }

/-- `cast_shape` (src/main.rs:104-137).  Inputs: the primary window
(`windows.get_primary()`, `none` when absent), whether the left button was
just pressed, and the camera query results.  Output: the list of bodies
spawned this step, or `none` when the system panics — the source calls
`windows.get_primary().unwrap()` inside the per-camera loop, so the panic
happens exactly when the button was just pressed, at least one camera
matches, and there is no primary window; with no click or no camera the
loop body (and the `unwrap`) never runs. -/
def cast_shape (primary_window : Option Window) (left_just_pressed : Bool)
    (cameras : List (Camera × GlobalTransform)) : Option (List Body) :=
  if left_just_pressed then
    match primary_window with
    | none => if cameras.isEmpty then some [] else none
    | some w => some (cameras.map fun ct => spawn_for_camera w ct.1 ct.2)
  else
    some []

/-- Spec-side description of the cast algorithm from an NDC point (§4.1,
steps 2–5, quoted by claims C1/C2): build the combined inverse transform as
`view_matrix * inverse(projection_matrix)`, map the clip-space points
`(x, y, -1, 1)` and `(x, y, 1, 1)` through it, divide each by its `w`
component, and return origin = near point, direction = far − near
(not normalized).  Written from the spec's words, to be compared with the
source translation `ray_from_mouse_position`. -/
def cast_ndc_spec (x y : ℚ) (view_matrix projection_matrix : Mat4) :
    Vec3 × Vec3 :=
  let inverse_transform := view_matrix.mul projection_matrix.inverse
  let near4 := inverse_transform.mulVec4 ⟨x, y, -1, 1⟩
  let far4 := inverse_transform.mulVec4 ⟨x, y, 1, 1⟩
  let near := near4.truncate.div near4.w
  let far := far4.truncate.div far4.w
  (near, far.sub near)

/-- Spec-side re-projection used by claim C8: push a world point through
`projection_matrix * inverse(view_matrix)` (the perspective divide is done
at the use site). -/
def reproject (view_matrix projection_matrix : Mat4) (p : Vec3) : Vec4 :=
  (projection_matrix.mul view_matrix.inverse).mulVec4 (p.extend 1)

/-- Fixture: the demo-sized window (800×600) with the cursor at the center. -/
def win800 : Window := ⟨800, 600, some ⟨400, 300⟩⟩

/-- Fixture: a window whose viewport has zero width and height. -/
def win_zero : Window := ⟨0, 0, some ⟨3, 7⟩⟩

/-- Fixture: a camera transform sitting at the world origin. -/
def tf_identity : GlobalTransform := ⟨Mat4.identity⟩

/-- Fixture: a camera with an (invertible) identity projection. -/
def cam_identity : Camera := ⟨Mat4.identity⟩

/-- Fixture: a degenerate camera — the fourth column of its projection is
zero, so the determinant is zero and the matrix is not invertible. -/
def cam_degenerate : Camera :=
  ⟨⟨⟨1, 0, 0, 0⟩, ⟨0, 1, 0, 0⟩, ⟨0, 0, 1, -1⟩, ⟨0, 0, 0, 0⟩⟩⟩

/-- Fixture: an invertible (determinant −1) projection that swaps the `x` and
`w` coordinates, sending the near clip point of NDC `x = 0` to a point with
`w = 0`. -/
def cam_swap : Camera :=
  ⟨⟨⟨0, 0, 0, 1⟩, ⟨0, 1, 0, 0⟩, ⟨0, 0, 1, 0⟩, ⟨1, 0, 0, 0⟩⟩⟩

section Mat4Lemmas

set_option maxHeartbeats 1000000 in
theorem Mat4.mul_inverse (m : Mat4) (h : m.det ≠ 0) :
    m.mul m.inverse = Mat4.identity := by
  obtain ⟨⟨a00, a10, a20, a30⟩, ⟨a01, a11, a21, a31⟩,
    ⟨a02, a12, a22, a32⟩, ⟨a03, a13, a23, a33⟩⟩ := m
  simp only [Mat4.det, det3] at h
  simp only [Mat4.mul, Mat4.mulVec4, Mat4.inverse, Mat4.identity, Mat4.det,
    det3]
  ext <;> field_simp <;> ring

set_option maxHeartbeats 1000000 in
theorem Mat4.inverse_mul (m : Mat4) (h : m.det ≠ 0) :
    m.inverse.mul m = Mat4.identity := by
  obtain ⟨⟨a00, a10, a20, a30⟩, ⟨a01, a11, a21, a31⟩,
    ⟨a02, a12, a22, a32⟩, ⟨a03, a13, a23, a33⟩⟩ := m
  simp only [Mat4.det, det3] at h
  simp only [Mat4.mul, Mat4.mulVec4, Mat4.inverse, Mat4.identity, Mat4.det,
    det3]
  ext <;> field_simp <;> ring

theorem Mat4.mul_mulVec4 (a b : Mat4) (v : Vec4) :
    (a.mul b).mulVec4 v = a.mulVec4 (b.mulVec4 v) := by
  simp only [Mat4.mul, Mat4.mulVec4]
  ext <;> ring

theorem Mat4.mulVec4_smul (a : Mat4) (s : ℚ) (v : Vec4) :
    a.mulVec4 (Vec4.smul s v) = Vec4.smul s (a.mulVec4 v) := by
  simp only [Mat4.mulVec4, Vec4.smul]
  ext <;> ring

theorem Mat4.identity_mulVec4 (v : Vec4) :
    Mat4.identity.mulVec4 v = v := by
  simp only [Mat4.mulVec4, Mat4.identity]
  ext <;> ring

theorem Mat4.mul_assoc (a b c : Mat4) :
    (a.mul b).mul c = a.mul (b.mul c) := by
  simp only [Mat4.mul, Mat4.mulVec4]
  ext <;> ring

theorem Mat4.mul_identity (a : Mat4) :
    a.mul Mat4.identity = a := by
  simp only [Mat4.mul, Mat4.mulVec4, Mat4.identity]
  ext <;> ring

theorem Mat4.identity_mul (a : Mat4) :
    Mat4.identity.mul a = a := by
  simp only [Mat4.mul, Mat4.mulVec4, Mat4.identity]
  ext <;> ring

end Mat4Lemmas

/-- With a defined cursor, the source cast equals the spec-side algorithm at
the NDC point `(2*(px/w)-1, 2*(py/h)-1)` (shared helper behind several
claim theorems). -/
theorem ray_cursor_eq_spec (px py w h : ℚ) (camera : Camera)
    (camera_transform : GlobalTransform) :
    ray_from_mouse_position ⟨w, h, some ⟨px, py⟩⟩ camera camera_transform =
      cast_ndc_spec (2 * (px / w) - 1) (2 * (py / h) - 1)
        camera_transform.matrix camera.projection_matrix := rfl

/-- C1: for every cursor NDC point `(x, y)` (realized through a 2×2 window
whose cursor `(x+1, y+1)` converts exactly to NDC `(x, y)`) and every camera
state, the cast computes `view_matrix * inverse(projection_matrix)`, maps
the clip points `(x, y, -1, 1)` and `(x, y, 1, 1)` through it, divides by
`w`, and returns origin = near, direction = far − near (not normalized) —
i.e. it agrees with the spec-side algorithm `cast_ndc_spec`. -/
theorem claim_C1_cast_follows_spec_algorithm (x y : ℚ) (camera : Camera)
    (camera_transform : GlobalTransform) :
    ray_from_mouse_position ⟨2, 2, some ⟨x + 1, y + 1⟩⟩ camera
        camera_transform =
      cast_ndc_spec x y camera_transform.matrix camera.projection_matrix := by
  have hx : 2 * ((x + 1) / 2) - 1 = x := by ring
  have hy : 2 * ((y + 1) / 2) - 1 = y := by ring
  rw [ray_cursor_eq_spec, hx, hy]

/-- C2: for every cursor pixel position `(px, py)` and viewport of positive
width and height, the cast converts pixels to NDC exactly by
`ndc = 2*(p/size) - 1` on both axes, with no Y-axis flip: the resulting ray
is the spec-side algorithm evaluated at precisely that NDC point. -/
theorem claim_C2_pixel_to_ndc (px py w h : ℚ) (camera : Camera)
    (camera_transform : GlobalTransform) (hw : 0 < w) (hh : 0 < h) :
    ray_from_mouse_position ⟨w, h, some ⟨px, py⟩⟩ camera camera_transform =
      cast_ndc_spec (2 * (px / w) - 1) (2 * (py / h) - 1)
        camera_transform.matrix camera.projection_matrix :=
  ray_cursor_eq_spec px py w h camera camera_transform

theorem claim_C2_witness :
    (0 : ℚ) < 800 ∧ (0 : ℚ) < 600 ∧
      ray_from_mouse_position ⟨800, 600, some ⟨400, 300⟩⟩ cam_identity
          tf_identity =
        cast_ndc_spec (2 * (400 / 800) - 1) (2 * (300 / 600) - 1)
          tf_identity.matrix cam_identity.projection_matrix :=
  ⟨by norm_num, by norm_num,
   claim_C2_pixel_to_ndc 400 300 800 600 cam_identity tf_identity
     (by norm_num) (by norm_num)⟩

/-- C4: an undefined cursor position is substituted by pixel `(0, 0)` and
yields exactly the ray of an explicit cursor at `(0, 0)`, for every camera
and viewport. -/
theorem claim_C4_cursor_fallback (w h : ℚ) (camera : Camera)
    (camera_transform : GlobalTransform) :
    ray_from_mouse_position ⟨w, h, none⟩ camera camera_transform =
      ray_from_mouse_position ⟨w, h, some ⟨0, 0⟩⟩ camera camera_transform :=
  rfl

/-- C5 counterexample: with the left button just pressed, one camera present
and no primary window, `cast_shape` hits `windows.get_primary().unwrap()`
and panics (modelled by `none`), aborting the frame — refuting, at this
concrete input, the claim that a cast failure never aborts the surrounding
update loop. -/
theorem claim_C5_counterexample :
    cast_shape none true [(cam_identity, tf_identity)] = none := rfl

/-- C5 amended: `cast_shape` panics exactly when the left button was just
pressed, at least one camera matches and the primary window is missing; in
every other input state (including degenerate cameras and invalid
viewports, for which no check exists at all) the step completes without
aborting. -/
theorem claim_C5_amended_panic_iff (primary_window : Option Window)
    (left_just_pressed : Bool)
    (cameras : List (Camera × GlobalTransform)) :
    cast_shape primary_window left_just_pressed cameras = none ↔
      left_just_pressed = true ∧ cameras ≠ [] ∧ primary_window = none := by
  cases left_just_pressed <;> cases primary_window <;> cases cameras <;>
    simp [cast_shape]

/-- C9: the cast is deterministic — two invocations with identical window,
camera and transform inputs return identical rays (the source function
reads only its by-reference arguments and returns a fresh tuple, which is
why it embeds as a pure function at all). -/
theorem claim_C9_deterministic (w1 w2 : Window) (c1 c2 : Camera)
    (t1 t2 : GlobalTransform) (hw : w1 = w2) (hc : c1 = c2) (ht : t1 = t2) :
    ray_from_mouse_position w1 c1 t1 = ray_from_mouse_position w2 c2 t2 := by
  rw [hw, hc, ht]

theorem claim_C9_witness :
    ray_from_mouse_position win800 cam_identity tf_identity =
      ray_from_mouse_position win800 cam_identity tf_identity :=
  claim_C9_deterministic win800 win800 cam_identity cam_identity tf_identity
    tf_identity rfl rfl rfl

/-- C10 counterexample: on a step where the left button was just pressed and
one camera is present but the primary window is missing, `cast_shape` does
not spawn one body per camera — it panics (`none`), so no spawn list of
length 1 exists, refuting the claim as universally stated. -/
theorem claim_C10_counterexample :
    ¬ ∃ bodies,
        cast_shape none true [(cam_identity, tf_identity)] = some bodies ∧
          bodies.length = 1 := by
  rintro ⟨bodies, hb, hlen⟩
  simp [cast_shape] at hb

/-- C10 amended: provided the primary window exists, `cast_shape` spawns
bodies exactly when the left button was just pressed, and then exactly one
per camera: the step completes with a spawn list whose length is the number
of cameras on a click and zero otherwise. -/
theorem claim_C10_amended_spawn_count (w : Window) (left_just_pressed : Bool)
    (cameras : List (Camera × GlobalTransform)) :
    ∃ bodies, cast_shape (some w) left_just_pressed cameras = some bodies ∧
      bodies.length = if left_just_pressed then cameras.length else 0 := by
  cases left_just_pressed <;> simp [cast_shape]

/-- C3 counterexample: `cam_degenerate` has a zero-determinant projection,
yet the click is not dropped: `cast_shape` spawns one body anyway (there is
no `DegenerateCamera` failure path anywhere in the code), refuting the
claim that no body is spawned for a non-invertible projection. -/
theorem claim_C3_counterexample :
    cam_degenerate.projection_matrix.det = 0 ∧
      (cast_shape (some win800) true [(cam_degenerate, tf_identity)]).map
          List.length = some 1 := by
  constructor
  · norm_num [cam_degenerate, Mat4.det, det3]
  · simp [cast_shape]

/-- C3 amended: the code has no degenerate-camera guard.  For every camera
whose projection has determinant zero, the cast still goes through the
unchecked matrix inverse (whose entries divide by the zero determinant:
non-finite in the program's `f32` arithmetic, `0` under this model's
division-by-zero convention) and `cast_shape` still spawns exactly one body
whose position and velocity come from that unchecked ray. -/
theorem claim_C3_amended_no_guard (w : Window) (camera : Camera)
    (camera_transform : GlobalTransform)
    (hdeg : camera.projection_matrix.det = 0) :
    ∃ b, cast_shape (some w) true [(camera, camera_transform)] = some [b] ∧
      b.position = (ray_from_mouse_position w camera camera_transform).1 ∧
      b.linvel = (ray_from_mouse_position w camera camera_transform).2 :=
  ⟨spawn_for_camera w camera camera_transform, by simp [cast_shape],
    rfl, rfl⟩

theorem claim_C3_amended_witness :
    cam_degenerate.projection_matrix.det = 0 ∧
      ∃ b, cast_shape (some win800) true [(cam_degenerate, tf_identity)] =
            some [b] ∧
        b.position =
          (ray_from_mouse_position win800 cam_degenerate tf_identity).1 ∧
        b.linvel =
          (ray_from_mouse_position win800 cam_degenerate tf_identity).2 :=
  ⟨by norm_num [cam_degenerate, Mat4.det, det3],
   claim_C3_amended_no_guard win800 cam_degenerate tf_identity
     (by norm_num [cam_degenerate, Mat4.det, det3])⟩

/-- C6 counterexample: with a zero-width, zero-height viewport the cast does
not fail with an invalid-viewport error: the pixel-to-NDC division by zero
is performed regardless (NaN in the program's `f32` arithmetic, `0` under
this model's convention), a ray is returned, and `cast_shape` still spawns
a body — refuting, at this concrete input, the claim that the operation
fails explicitly instead. -/
theorem claim_C6_counterexample :
    win_zero.width = 0 ∧ win_zero.height = 0 ∧
      (cast_shape (some win_zero) true [(cam_identity, tf_identity)]).map
          List.length = some 1 := by
  refine ⟨rfl, rfl, ?_⟩
  simp [cast_shape]

/-- C6 amended: the code has no viewport guard.  For every camera and every
cursor position, casting against a zero-by-zero viewport still returns a
ray: the divisions `px / 0`, `py / 0` go through unchecked (non-finite in
`f32`; `0` under this model's division-by-zero convention, which pins the
NDC point at `(-1, -1)`), and the result is the spec-side algorithm at that
degenerate NDC point — no invalid-viewport error value exists. -/
theorem claim_C6_amended_no_viewport_guard (camera : Camera)
    (camera_transform : GlobalTransform) (px py : ℚ) :
    ray_from_mouse_position ⟨0, 0, some ⟨px, py⟩⟩ camera camera_transform =
      cast_ndc_spec (-1) (-1) camera_transform.matrix
        camera.projection_matrix := by
  have hx : 2 * (px / 0) - 1 = -1 := by norm_num
  have hy : 2 * (py / 0) - 1 = -1 := by norm_num
  rw [ray_cursor_eq_spec, hx, hy]

/-- C7: every body spawned by a click comes from some camera in the world,
and for it the spawn position equals the ray's origin, the linear velocity
equals the ray's unnormalized direction, and the impulse applied at spawn
time is the fixed coefficient `5000` times the camera's forward axis. -/
theorem claim_C7_spawn_uses_ray (w : Window)
    (cameras : List (Camera × GlobalTransform)) (bodies : List Body)
    (b : Body) (hcast : cast_shape (some w) true cameras = some bodies)
    (hb : b ∈ bodies) :
    ∃ ct ∈ cameras,
      b.position = (ray_from_mouse_position w ct.1 ct.2).1 ∧
      b.linvel = (ray_from_mouse_position w ct.1 ct.2).2 ∧
      b.impulse = Vec3.smul 5000 ct.2.forward := by
  have hbodies :
      bodies = cameras.map fun ct => spawn_for_camera w ct.1 ct.2 := by
    simpa [cast_shape] using hcast.symm
  subst hbodies
  rcases List.mem_map.mp hb with ⟨ct, hct, hft⟩
  exact ⟨ct, hct, by rw [← hft]; rfl, by rw [← hft]; rfl, by rw [← hft]; rfl⟩

theorem claim_C7_witness :
    ∃ ct ∈ [(cam_identity, tf_identity)],
      (spawn_for_camera win800 cam_identity tf_identity).position =
        (ray_from_mouse_position win800 ct.1 ct.2).1 ∧
      (spawn_for_camera win800 cam_identity tf_identity).linvel =
        (ray_from_mouse_position win800 ct.1 ct.2).2 ∧
      (spawn_for_camera win800 cam_identity tf_identity).impulse =
        Vec3.smul 5000 ct.2.forward :=
  claim_C7_spawn_uses_ray win800 [(cam_identity, tf_identity)]
    [spawn_for_camera win800 cam_identity tf_identity]
    (spawn_for_camera win800 cam_identity tf_identity)
    (by simp [cast_shape]) (by simp)

/-- C8 amended: for every invertible view/projection pair and NDC point
`(x, y)` in `[-1, 1]²` whose unprojected near clip point has a nonzero `w`
component, unprojecting at near depth through the cast and re-projecting
the world point through `projection_matrix * inverse(view_matrix)` (with
perspective divide) reproduces `(x, y)` — exactly, in this model's real
arithmetic, hence a fortiori within the claim's `1e-4` tolerance.  The
`w ≠ 0` proviso is forced by `claim_C8_counterexample`. -/
theorem claim_C8_amended_roundtrip (view projection : Mat4) (x y : ℚ)
    (hview : view.det ≠ 0) (hproj : projection.det ≠ 0)
    (hx1 : -1 ≤ x) (hx2 : x ≤ 1) (hy1 : -1 ≤ y) (hy2 : y ≤ 1)
    (hw : ((view.mul projection.inverse).mulVec4 ⟨x, y, -1, 1⟩).w ≠ 0) :
    |(reproject view projection
        (ray_from_mouse_position ⟨2, 2, some ⟨x + 1, y + 1⟩⟩ ⟨projection⟩
          ⟨view⟩).1).x /
      (reproject view projection
        (ray_from_mouse_position ⟨2, 2, some ⟨x + 1, y + 1⟩⟩ ⟨projection⟩
          ⟨view⟩).1).w - x| ≤ 1 / 10000 ∧
    |(reproject view projection
        (ray_from_mouse_position ⟨2, 2, some ⟨x + 1, y + 1⟩⟩ ⟨projection⟩
          ⟨view⟩).1).y /
      (reproject view projection
        (ray_from_mouse_position ⟨2, 2, some ⟨x + 1, y + 1⟩⟩ ⟨projection⟩
          ⟨view⟩).1).w - y| ≤ 1 / 10000 := by
  have hxr : 2 * ((x + 1) / 2) - 1 = x := by ring
  have hyr : 2 * ((y + 1) / 2) - 1 = y := by ring
  have hray : (ray_from_mouse_position ⟨2, 2, some ⟨x + 1, y + 1⟩⟩
      (⟨projection⟩ : Camera) (⟨view⟩ : GlobalTransform)).1 =
      (((view.mul projection.inverse).mulVec4 ⟨x, y, -1, 1⟩).truncate).div
        ((view.mul projection.inverse).mulVec4 ⟨x, y, -1, 1⟩).w := by
    rw [ray_cursor_eq_spec, hxr, hyr]
    rfl
  have hext : ((((view.mul projection.inverse).mulVec4
        ⟨x, y, -1, 1⟩).truncate).div
          ((view.mul projection.inverse).mulVec4 ⟨x, y, -1, 1⟩).w).extend 1 =
      Vec4.smul (1 / ((view.mul projection.inverse).mulVec4
        ⟨x, y, -1, 1⟩).w) ((view.mul projection.inverse).mulVec4
          ⟨x, y, -1, 1⟩) := by
    ext <;> simp only [Vec4.truncate, Vec3.div, Vec3.extend, Vec4.smul] <;>
      field_simp
  have hmat : (projection.mul view.inverse).mul
      (view.mul projection.inverse) = Mat4.identity := by
    rw [Mat4.mul_assoc, ← Mat4.mul_assoc view.inverse view
      projection.inverse, Mat4.inverse_mul view hview, Mat4.identity_mul,
      Mat4.mul_inverse projection hproj]
  have hrep : reproject view projection
      ((((view.mul projection.inverse).mulVec4 ⟨x, y, -1, 1⟩).truncate).div
        ((view.mul projection.inverse).mulVec4 ⟨x, y, -1, 1⟩).w) =
      Vec4.smul (1 / ((view.mul projection.inverse).mulVec4
        ⟨x, y, -1, 1⟩).w) ⟨x, y, -1, 1⟩ := by
    rw [reproject, hext, Mat4.mulVec4_smul, ← Mat4.mul_mulVec4, hmat,
      Mat4.identity_mulVec4]
  rw [hray, hrep]
  simp only [Vec4.smul]
  rw [mul_one, mul_div_cancel_left₀ x (one_div_ne_zero hw),
    mul_div_cancel_left₀ y (one_div_ne_zero hw)]
  norm_num

/-- C8 counterexample: the claim as stated fails without a `w ≠ 0` proviso.
Take the identity view, the invertible (determinant −1) projection
`cam_swap`, and the NDC point `(0, 1/2)`: the unprojected near clip point
has `w = 0`, so the perspective divide degenerates (the near point is
non-finite in `f32`; the division-by-zero convention yields `(0,0,0)`
here), and re-projecting misses `y = 1/2` by `1/2`, far beyond the `1e-4`
tolerance. -/
theorem claim_C8_counterexample :
    tf_identity.matrix.det ≠ 0 ∧ cam_swap.projection_matrix.det ≠ 0 ∧
      (-1 : ℚ) ≤ 0 ∧ (0 : ℚ) ≤ 1 ∧ (-1 : ℚ) ≤ 1 / 2 ∧ (1 / 2 : ℚ) ≤ 1 ∧
      ¬ (|(reproject tf_identity.matrix cam_swap.projection_matrix
            (ray_from_mouse_position ⟨2, 2, some ⟨0 + 1, 1 / 2 + 1⟩⟩
              cam_swap tf_identity).1).x /
          (reproject tf_identity.matrix cam_swap.projection_matrix
            (ray_from_mouse_position ⟨2, 2, some ⟨0 + 1, 1 / 2 + 1⟩⟩
              cam_swap tf_identity).1).w - 0| ≤ 1 / 10000 ∧
         |(reproject tf_identity.matrix cam_swap.projection_matrix
            (ray_from_mouse_position ⟨2, 2, some ⟨0 + 1, 1 / 2 + 1⟩⟩
              cam_swap tf_identity).1).y /
          (reproject tf_identity.matrix cam_swap.projection_matrix
            (ray_from_mouse_position ⟨2, 2, some ⟨0 + 1, 1 / 2 + 1⟩⟩
              cam_swap tf_identity).1).w - 1 / 2| ≤ 1 / 10000) := by
  norm_num [ray_from_mouse_position, reproject, cam_swap, tf_identity,
    Mat4.identity, Mat4.mul, Mat4.mulVec4, Mat4.inverse, Mat4.det, det3,
    Vec3.extend, Vec4.truncate, Vec3.div, Vec3.sub,
    GlobalTransform.compute_matrix, Option.getD]
  rw [show |(1 / 2 : ℚ)| = 1 / 2 from abs_of_nonneg (by norm_num)]
  norm_num

theorem claim_C8_amended_witness :
    Mat4.identity.det ≠ 0 ∧
      ((Mat4.identity.mul Mat4.identity.inverse).mulVec4
        ⟨1 / 2, -1 / 3, -1, 1⟩).w ≠ 0 ∧
      (|(reproject Mat4.identity Mat4.identity
          (ray_from_mouse_position ⟨2, 2, some ⟨1 / 2 + 1, -1 / 3 + 1⟩⟩
            ⟨Mat4.identity⟩ ⟨Mat4.identity⟩).1).x /
        (reproject Mat4.identity Mat4.identity
          (ray_from_mouse_position ⟨2, 2, some ⟨1 / 2 + 1, -1 / 3 + 1⟩⟩
            ⟨Mat4.identity⟩ ⟨Mat4.identity⟩).1).w - 1 / 2| ≤ 1 / 10000 ∧
       |(reproject Mat4.identity Mat4.identity
          (ray_from_mouse_position ⟨2, 2, some ⟨1 / 2 + 1, -1 / 3 + 1⟩⟩
            ⟨Mat4.identity⟩ ⟨Mat4.identity⟩).1).y /
        (reproject Mat4.identity Mat4.identity
          (ray_from_mouse_position ⟨2, 2, some ⟨1 / 2 + 1, -1 / 3 + 1⟩⟩
            ⟨Mat4.identity⟩ ⟨Mat4.identity⟩).1).w - -1 / 3| ≤ 1 / 10000) :=
  ⟨by norm_num [Mat4.identity, Mat4.det, det3],
   by norm_num [Mat4.identity, Mat4.mul, Mat4.mulVec4, Mat4.inverse,
     Mat4.det, det3],
   claim_C8_amended_roundtrip Mat4.identity Mat4.identity (1 / 2) (-1 / 3)
     (by norm_num [Mat4.identity, Mat4.det, det3])
     (by norm_num [Mat4.identity, Mat4.det, det3])
     (by norm_num) (by norm_num) (by norm_num) (by norm_num)
     (by norm_num [Mat4.identity, Mat4.mul, Mat4.mulVec4, Mat4.inverse,
       Mat4.det, det3])⟩
